import Mathlib

/-!
Shallow embedding of `src/app.py` (company formation server): the pydantic
models `CompanyFormation` and `BylawsRequest` with their validators, the
four formation-document generators, the bylaws generator, and the two POST
handlers' dispatch logic.  PDF drawing calls are embedded as lists of
`Instr` draw instructions (text, position, font, alignment); the extracted
text of a document is the sequence of instruction texts.
-/

/-- The apostrophe character (U+0027), used in string literals below. -/
def apos : String := String.singleton (Char.ofNat 39)

/-- Model of `reportlab.lib.pagesizes.letter` width: 612 points. -/
def letterWidth : Int := 612

/-- One text-draw instruction issued on the reportlab canvas: `centered`
is true for `drawCentredString`, false for `drawString`; `font`/`size`
are the state set by the most recent `setFont` call. -/
structure Instr where
  x : Int
  y : Int
  font : String
  size : Nat
  centered : Bool
  text : String
deriving DecidableEq

/-- Model of `datetime.now()` as used by the generators: day of month,
month number (1-12) and year. -/
structure Now where
  day : Nat
  month : Nat
  year : Nat

/-- Python `strftime` directive `%d`: zero-padded two-digit day. -/
def pad2 (n : Nat) : String :=
  if n < 10 then "0" ++ toString n else toString n

/-- The twelve full English month names, as in `validate_annual_meeting_month`
(app.py lines 36-37). -/
def monthNames : List String :=
  ["January", "February", "March", "April", "May", "June",
   "July", "August", "September", "October", "November", "December"]

/-- Python `strftime` directive `%B`: full month name (month is 1-based). -/
def monthName (m : Nat) : String := monthNames.getD (m - 1) ""

/-- `app.py` lines 13-17: the `CompanyFormation` pydantic model.  The class
body declares four required fields and NO validators (the validator block at
lines 28-60 is indented inside `BylawsRequest`), so a constructed record
holds the field values exactly as supplied. -/
structure CompanyFormation where
  company_name : String
  state_of_formation : String
  company_type : String
  incorporator_name : String
deriving DecidableEq

/-- Raw (pre-validation) input for a `/form-company` request body. -/
structure RawFormation where
  company_name : Option String
  state_of_formation : Option String
  company_type : Option String
  incorporator_name : Option String

/-- Construction of a `CompanyFormation` from raw input, as pydantic performs
it for the class at app.py lines 13-17: every field is required, and
`company_type : Literal["corporation", "LLC"]` must equal one of the two
literals exactly (case-sensitive).  No other validation runs: the class
declares no validators, so `company_name` and `state_of_formation` are
accepted as given, with no charset check, no state-set check and no
upper-casing. -/
def mkCompanyFormation (raw : RawFormation) : Except String CompanyFormation :=
  match raw.company_name, raw.state_of_formation, raw.company_type,
      raw.incorporator_name with
  | some n, some s, some t, some i =>
    if t = "corporation" ∨ t = "LLC" then
      Except.ok ⟨n, s, t, i⟩
    else
      Except.error "unexpected value; permitted: corporation, LLC"
  | _, _, _, _ => Except.error "field required"

/-- The fixed 56-entry US state/territory code set of `validate_state`
(app.py lines 50-57). -/
def stateCodes : List String :=
  ["AL", "AK", "AZ", "AR", "CA", "CO", "CT", "DE", "FL", "GA",
   "HI", "ID", "IL", "IN", "IA", "KS", "KY", "LA", "ME", "MD",
   "MA", "MI", "MN", "MS", "MO", "MT", "NE", "NV", "NH", "NJ",
   "NM", "NY", "NC", "ND", "OH", "OK", "OR", "PA", "RI", "SC",
   "SD", "TN", "TX", "UT", "VT", "VA", "WA", "WV", "WI", "WY",
   "DC", "PR", "GU", "VI", "AS", "MP"]

/-- Python `str.upper()` restricted to ASCII (the inputs involved are
ASCII): upper-case every character. -/
def strUpper (s : String) : String := ⟨s.data.map Char.toUpper⟩

/-- `app.py` lines 48-60: the `validate_state` validator body.  It is
declared with `@validator('state_of_formation')` inside `BylawsRequest`
(a class that has no `state_of_formation` field), so it is never applied
to `CompanyFormation` input; this embeds its body as a standalone
function. -/
def validate_state (v : String) : Except String String :=
  if strUpper v ∈ stateCodes then Except.ok (strUpper v)
  else Except.error "Invalid US state or territory"

/-- Character class `[a-zA-Z0-9\s,\.\'&]` of `validate_company_name`
(app.py line 44); `\s` is modelled by the six ASCII whitespace
characters Python's `re` matches on ASCII text. -/
def companyNameChar (c : Char) : Bool :=
  (Char.ofNat 97 ≤ c ∧ c ≤ Char.ofNat 122) ∨
  (Char.ofNat 65 ≤ c ∧ c ≤ Char.ofNat 90) ∨
  (Char.ofNat 48 ≤ c ∧ c ≤ Char.ofNat 57) ∨
  c = ' ' ∨ c = Char.ofNat 9 ∨ c = Char.ofNat 10 ∨ c = Char.ofNat 13 ∨
  c = Char.ofNat 11 ∨ c = Char.ofNat 12 ∨
  c = ',' ∨ c = '.' ∨ c = Char.ofNat 39 ∨ c = '&'

/-- `app.py` lines 42-46: the `validate_company_name` validator body,
`re.match` against the anchored pattern of one-or-more characters of the
class above (a trailing newline permitted by Python `$` is already in the
class, so plain all-characters-match is equivalent). -/
def validate_company_name (v : String) : Except String String :=
  if v ≠ "" ∧ v.data.all companyNameChar then Except.ok v
  else Except.error
    "Company name can only contain alphanumeric characters, spaces, commas, periods, apostrophes, and ampersands"

/-- Month half `(0[1-9]|1[0-2])` of the fiscal-year-end regex. -/
def fyeMonthOk (m1 m2 : Char) : Bool :=
  (m1 = '0' ∧ '1' ≤ m2 ∧ m2 ≤ '9') ∨ (m1 = '1' ∧ '0' ≤ m2 ∧ m2 ≤ '2')

/-- Day half `(0[1-9]|[12][0-9]|3[01])` of the fiscal-year-end regex. -/
def fyeDayOk (d1 d2 : Char) : Bool :=
  (d1 = '0' ∧ '1' ≤ d2 ∧ d2 ≤ '9') ∨
  ((d1 = '1' ∨ d1 = '2') ∧ '0' ≤ d2 ∧ d2 ≤ '9') ∨
  (d1 = '3' ∧ (d2 = '0' ∨ d2 = '1'))

/-- `app.py` lines 28-32: `validate_fiscal_year_end`, i.e.
`re.match(r'^(0[1-9]|1[0-2])-(0[1-9]|[12][0-9]|3[01])$', v)`.  Python `$`
also matches just before one final newline, hence the six-character arm. -/
def validate_fiscal_year_end (v : String) : Bool :=
  match v.data with
  | [m1, m2, '-', d1, d2] => fyeMonthOk m1 m2 ∧ fyeDayOk d1 d2
  | [m1, m2, '-', d1, d2, c] =>
    c = Char.ofNat 10 ∧ fyeMonthOk m1 m2 ∧ fyeDayOk d1 d2
  | _ => false

/-- `app.py` lines 34-40: `validate_annual_meeting_month`, exact membership
in the twelve full English month names. -/
def validate_annual_meeting_month (v : String) : Except String String :=
  if v ∈ monthNames then Except.ok v
  else Except.error "Annual meeting month must be a valid month name"

/-- `app.py` lines 19-26: the `BylawsRequest` pydantic model fields. -/
structure BylawsRequest where
  company_name : String
  principal_office : String
  fiscal_year_end : String
  board_size : Int
  officer_titles : List String
  annual_meeting_month : String
  quorum_percentage : Int
deriving DecidableEq

/-- Raw (pre-validation) input for a `/generate-bylaws` request body. -/
structure RawBylaws where
  company_name : Option String
  principal_office : Option String
  fiscal_year_end : Option String
  board_size : Option Int
  officer_titles : Option (List String)
  annual_meeting_month : Option String
  quorum_percentage : Option Int

/-- Construction of a `BylawsRequest` from raw input: all fields required;
`board_size` has `ge=1`, `quorum_percentage` has `ge=0, le=100`; the
validators for `fiscal_year_end`, `annual_meeting_month` and
`company_name` run on their fields.  (`validate_state` targets a field
`state_of_formation` this class does not have, so it checks nothing
here.) -/
def mkBylawsRequest (raw : RawBylaws) : Except String BylawsRequest :=
  match raw.company_name, raw.principal_office, raw.fiscal_year_end,
      raw.board_size, raw.officer_titles, raw.annual_meeting_month,
      raw.quorum_percentage with
  | some n, some po, some fye, some bs, some ot, some amm, some qp =>
    match validate_company_name n with
    | Except.error e => Except.error e
    | Except.ok _ =>
      if ¬ validate_fiscal_year_end fye then
        Except.error "Fiscal year end must be in MM-DD format"
      else if bs < 1 then
        Except.error "ensure this value is greater than or equal to 1"
      else
        match validate_annual_meeting_month amm with
        | Except.error e => Except.error e
        | Except.ok _ =>
          if qp < 0 then
            Except.error "ensure this value is greater than or equal to 0"
          else if 100 < qp then
            Except.error "ensure this value is less than or equal to 100"
          else
            Except.ok ⟨n, po, fye, bs, ot, amm, qp⟩
  | _, _, _, _, _, _, _ => Except.error "field required"

/-- `app.py` lines 62-97: `generate_delaware_articles`, as the ordered list
of canvas draw instructions it issues. -/
def generate_delaware_articles (r : CompanyFormation) (t : Now) : List Instr :=
  [⟨300, 750, "Helvetica-Bold", 16, true, "CERTIFICATE OF INCORPORATION"⟩,
   ⟨50, 700, "Helvetica", 12, false, "FIRST: The name of this corporation is:"⟩,
   ⟨70, 680, "Helvetica", 12, false, r.company_name⟩,
   ⟨50, 630, "Helvetica", 12, false,
     "SECOND: Its registered office in the State of Delaware is located at:"⟩,
   ⟨70, 610, "Helvetica", 12, false,
     "251 Little Falls Drive, Wilmington, New Castle County, Delaware 19808"⟩,
   ⟨50, 560, "Helvetica", 12, false,
     "THIRD: The purpose of the corporation is to engage in any lawful act or activity for"⟩,
   ⟨50, 540, "Helvetica", 12, false,
     "which corporations may be organized under the General Corporation Law of Delaware."⟩,
   ⟨50, 490, "Helvetica", 12, false,
     "FOURTH: The total number of shares of stock which this corporation is authorized"⟩,
   ⟨50, 470, "Helvetica", 12, false,
     "to issue is 1,000 shares of Common Stock with $0.01 par value per share."⟩,
   ⟨50, 200, "Helvetica", 12, false,
     "IN WITNESS WHEREOF, the undersigned, being the incorporator hereinbefore named,"⟩,
   ⟨50, 180, "Helvetica", 12, false,
     "has executed this Certificate of Incorporation this " ++ pad2 t.day ++ " day of"⟩,
   ⟨50, 160, "Helvetica", 12, false, monthName t.month ++ ", " ++ toString t.year ++ "."⟩,
   ⟨50, 100, "Helvetica", 12, false, "Incorporator:"⟩,
   ⟨70, 80, "Helvetica", 12, false, r.incorporator_name⟩]

/-- `app.py` lines 99-134: `generate_delaware_llc_certificate`. -/
def generate_delaware_llc_certificate (r : CompanyFormation) (t : Now) : List Instr :=
  [⟨300, 750, "Helvetica-Bold", 16, true, "CERTIFICATE OF FORMATION"⟩,
   ⟨50, 700, "Helvetica", 12, false,
     "FIRST: The name of the limited liability company is:"⟩,
   ⟨70, 680, "Helvetica", 12, false, r.company_name⟩,
   ⟨50, 630, "Helvetica", 12, false,
     "SECOND: The address of its registered office in the State of Delaware is:"⟩,
   ⟨70, 610, "Helvetica", 12, false,
     "251 Little Falls Drive, Wilmington, New Castle County, Delaware 19808"⟩,
   ⟨50, 560, "Helvetica", 12, false,
     "THIRD: The name and address of its registered agent in the State of Delaware is:"⟩,
   ⟨70, 540, "Helvetica", 12, false, "Corporation Service Company"⟩,
   ⟨70, 520, "Helvetica", 12, false, "251 Little Falls Drive"⟩,
   ⟨70, 500, "Helvetica", 12, false, "Wilmington, DE 19808"⟩,
   ⟨50, 450, "Helvetica", 12, false,
     "FOURTH: The limited liability company shall be managed by its members."⟩,
   ⟨50, 200, "Helvetica", 12, false,
     "IN WITNESS WHEREOF, the undersigned has executed this Certificate of Formation this "
       ++ pad2 t.day ++ " day of"⟩,
   ⟨50, 180, "Helvetica", 12, false, monthName t.month ++ ", " ++ toString t.year ++ "."⟩,
   ⟨50, 100, "Helvetica", 12, false, "Authorized Person:"⟩,
   ⟨70, 80, "Helvetica", 12, false, r.incorporator_name⟩]

/-- `app.py` lines 136-169: `generate_california_articles`. -/
def generate_california_articles (r : CompanyFormation) (t : Now) : List Instr :=
  [⟨300, 750, "Helvetica-Bold", 16, true, "ARTICLES OF INCORPORATION"⟩,
   ⟨50, 700, "Helvetica", 12, false, "ARTICLE I: The name of this corporation is:"⟩,
   ⟨70, 680, "Helvetica", 12, false, r.company_name⟩,
   ⟨50, 630, "Helvetica", 12, false,
     "ARTICLE II: The purpose of the corporation is to engage in any lawful act or activity"⟩,
   ⟨50, 610, "Helvetica", 12, false,
     "for which a corporation may be organized under the General Corporation Law of California."⟩,
   ⟨50, 560, "Helvetica", 12, false,
     "ARTICLE III: The name and address in California of the corporation" ++ apos
       ++ "s initial agent for service of process is:"⟩,
   ⟨70, 540, "Helvetica", 12, false, "California Registered Agent, Inc."⟩,
   ⟨70, 520, "Helvetica", 12, false, "123 Main Street"⟩,
   ⟨70, 500, "Helvetica", 12, false, "Los Angeles, CA 90001"⟩,
   ⟨50, 200, "Helvetica", 12, false,
     "IN WITNESS WHEREOF, the undersigned, being the incorporator hereinbefore named,"⟩,
   ⟨50, 180, "Helvetica", 12, false,
     "has executed these Articles of Incorporation this " ++ pad2 t.day ++ " day of"⟩,
   ⟨50, 160, "Helvetica", 12, false, monthName t.month ++ ", " ++ toString t.year ++ "."⟩,
   ⟨50, 100, "Helvetica", 12, false, "Incorporator:"⟩,
   ⟨70, 80, "Helvetica", 12, false, r.incorporator_name⟩]

/-- `app.py` lines 171-202: `generate_california_llc_certificate`. -/
def generate_california_llc_certificate (r : CompanyFormation) (t : Now) : List Instr :=
  [⟨300, 750, "Helvetica-Bold", 16, true, "ARTICLES OF ORGANIZATION"⟩,
   ⟨50, 700, "Helvetica", 12, false,
     "ARTICLE I: The name of the limited liability company is:"⟩,
   ⟨70, 680, "Helvetica", 12, false, r.company_name⟩,
   ⟨50, 630, "Helvetica", 12, false,
     "ARTICLE II: The purpose of the limited liability company is to engage in any lawful business."⟩,
   ⟨50, 560, "Helvetica", 12, false,
     "ARTICLE III: The name and address in California of the LLC" ++ apos
       ++ "s initial agent for service of process is:"⟩,
   ⟨70, 540, "Helvetica", 12, false, "California Registered Agent, Inc."⟩,
   ⟨70, 520, "Helvetica", 12, false, "123 Main Street"⟩,
   ⟨70, 500, "Helvetica", 12, false, "Los Angeles, CA 90001"⟩,
   ⟨50, 200, "Helvetica", 12, false,
     "IN WITNESS WHEREOF, the undersigned has executed these Articles of Organization this "
       ++ pad2 t.day ++ " day of"⟩,
   ⟨50, 180, "Helvetica", 12, false, monthName t.month ++ ", " ++ toString t.year ++ "."⟩,
   ⟨50, 100, "Helvetica", 12, false, "Authorized Person:"⟩,
   ⟨70, 80, "Helvetica", 12, false, r.incorporator_name⟩]

/-- The officer-titles loop of `generate_bylaws` (app.py lines 368-371):
starting from cursor `y`, draw each title as `"- " ++ title` at `(70, y)`
and advance `y` by `-20`; returns the drawn instructions and the final
cursor value. -/
def officerPart : List String → Int → List Instr × Int
  | [], y => ([], y)
  | t :: ts, y =>
    let rest := officerPart ts (y - 20)
    (⟨70, y, "Helvetica", 12, false, "- " ++ t⟩ :: rest.1, rest.2)

/-- `app.py` lines 331-382: `generate_bylaws`.  The title line draws
`company_name.upper()` (`strUpper`); the ARTICLE V section is drawn at offsets `-20`, `-40`, `-60` from
the cursor left by the officer loop. -/
def generate_bylaws (b : BylawsRequest) : List Instr :=
  let op := officerPart b.officer_titles 360
  [⟨300, 750, "Helvetica-Bold", 16, true, "CORPORATE BYLAWS OF"⟩,
   ⟨300, 730, "Helvetica-Bold", 16, true, strUpper b.company_name⟩,
   ⟨50, 680, "Helvetica-Bold", 14, false, "ARTICLE I - OFFICES"⟩,
   ⟨50, 660, "Helvetica", 12, false,
     "The principal office of the corporation shall be located at:"⟩,
   ⟨70, 640, "Helvetica", 12, false, b.principal_office⟩,
   ⟨50, 600, "Helvetica-Bold", 14, false, "ARTICLE II - SHAREHOLDERS MEETINGS"⟩,
   ⟨50, 580, "Helvetica", 12, false,
     "1. Annual Meeting. The annual meeting of shareholders shall be held in"⟩,
   ⟨70, 560, "Helvetica", 12, false, b.annual_meeting_month ++ " of each year."⟩,
   ⟨50, 540, "Helvetica", 12, false,
     "2. Quorum. " ++ toString b.quorum_percentage
       ++ "% of the outstanding shares shall constitute"⟩,
   ⟨70, 520, "Helvetica", 12, false, "a quorum for the transaction of business."⟩,
   ⟨50, 480, "Helvetica-Bold", 14, false, "ARTICLE III - BOARD OF DIRECTORS"⟩,
   ⟨50, 460, "Helvetica", 12, false,
     "1. Number. The Board of Directors shall consist of " ++ toString b.board_size⟩,
   ⟨70, 440, "Helvetica", 12, false, "director(s)."⟩,
   ⟨50, 400, "Helvetica-Bold", 14, false, "ARTICLE IV - OFFICERS"⟩,
   ⟨50, 380, "Helvetica", 12, false,
     "1. Officers. The officers of the corporation shall be:"⟩]
  ++ op.1 ++
  [⟨50, op.2 - 20, "Helvetica-Bold", 14, false, "ARTICLE V - FISCAL YEAR"⟩,
   ⟨50, op.2 - 40, "Helvetica", 12, false,
     "The fiscal year of the corporation shall end on " ++ b.fiscal_year_end⟩,
   ⟨50, op.2 - 60, "Helvetica", 12, false, "of each year."⟩]

/-- Result of an HTTP handler: a PDF download, a jsonified error response
with a status code, or an exception that escapes the handler (which Flask
turns into a generic 500 Internal Server Error page, not a JSON body). -/
inductive HttpResult where
  | pdf (filename : String) (doc : List Instr)
  | jsonError (status : Nat) (message : String)
  | crash (exception : String)
deriving DecidableEq

/-- `app.py` lines 204-246: the dispatch logic of the `/form-company`
handler after `CompanyFormation(**data)` succeeded (lines 220-244):
nested if/elif on `state_of_formation` and `company_type` choosing among
the four generators, else a 400 JSON error. -/
def form_company (r : CompanyFormation) (t : Now) : HttpResult :=
  if r.state_of_formation = "DE" then
    if r.company_type = "corporation" then
      HttpResult.pdf (r.company_name ++ "_certificate.pdf") (generate_delaware_articles r t)
    else if r.company_type = "LLC" then
      HttpResult.pdf (r.company_name ++ "_certificate.pdf")
        (generate_delaware_llc_certificate r t)
    else HttpResult.jsonError 400 "Unsupported company type"
  else if r.state_of_formation = "CA" then
    if r.company_type = "corporation" then
      HttpResult.pdf (r.company_name ++ "_certificate.pdf")
        (generate_california_articles r t)
    else if r.company_type = "LLC" then
      HttpResult.pdf (r.company_name ++ "_certificate.pdf")
        (generate_california_llc_certificate r t)
    else HttpResult.jsonError 400 "Unsupported company type"
  else
    HttpResult.jsonError 400 "Only Delaware and California entities are supported at this time"

/-- `app.py` lines 384-399: the `/generate-bylaws` handler.  On a
validation failure the handler's first clause `except ValidationError`
evaluates the name `ValidationError`, which line 2 of app.py never
imports and the module never defines; that evaluation raises `NameError`,
which escapes the handler (the later `except Exception` clause of the same
try statement is not consulted for it), so the request ends in a crash,
not in the written 400 JSON response. -/
def generate_company_bylaws (raw : RawBylaws) : HttpResult :=
  match mkBylawsRequest raw with
  | Except.ok b =>
    HttpResult.pdf (b.company_name.replace " " "_" ++ "_bylaws.pdf") (generate_bylaws b)
  | Except.error _ =>
    HttpResult.crash "NameError: name ValidationError is not defined"

/-- The formation record of the repository tests (`test_state_validation`). -/
def rawStateXX : RawFormation :=
  ⟨some "Test Company", some "XX", some "corporation", some "Test User"⟩

/-- The same request with a lowercase state code. -/
def rawStateLower : RawFormation :=
  ⟨some "Test Company", some "de", some "corporation", some "Test User"⟩

/-- A formation request whose company name uses characters outside
`[A-Za-z0-9\s,.'&]`. -/
def rawBadName : RawFormation :=
  ⟨some "Bad@Name!", some "DE", some "corporation", some "Test User"⟩

/-- The bylaws request body of the repository tests (`VALID_BYLAWS_DATA`). -/
def rawBylawsValid : RawBylaws :=
  ⟨some "Test Corporation", some "123 Main St, Suite 100, San Francisco, CA 94105",
   some "12-31", some 5, some ["Chief Executive Officer", "Secretary", "Treasurer"],
   some "June", some 51⟩

/-- `VALID_BYLAWS_DATA` with the invalid fiscal year end "13-31" of
`test_bylaws_request_validation`. -/
def rawBylawsBadFiscal : RawBylaws :=
  ⟨some "Test Corporation", some "123 Main St, Suite 100, San Francisco, CA 94105",
   some "13-31", some 5, some ["Chief Executive Officer", "Secretary", "Treasurer"],
   some "June", some 51⟩

/-- The validated record corresponding to `rawBylawsValid`. -/
def bylawsTestRec : BylawsRequest :=
  ⟨"Test Corporation", "123 Main St, Suite 100, San Francisco, CA 94105",
   "12-31", 5, ["Chief Executive Officer", "Secretary", "Treasurer"], "June", 51⟩

/-- A validated Delaware corporation record (the first schema example). -/
def formationTestRec : CompanyFormation :=
  ⟨"Acme Corp, Inc.", "DE", "corporation", "John Smith"⟩

/-- Raw request producing `formationTestRec`. -/
def rawFormationTest : RawFormation :=
  ⟨some "Acme Corp, Inc.", some "DE", some "corporation", some "John Smith"⟩

/-- A validated record with an unsupported jurisdiction. -/
def formationTX : CompanyFormation := ⟨"Test Company", "TX", "corporation", "Test User"⟩

/-- A fixed render-time clock value. -/
def nowTest : Now := ⟨1, 1, 2026⟩

/-- C1: the claim says validation of a formation request's
`state_of_formation` accepts exactly the 56-code set case-insensitively
and stores the uppercased value.  In the code the `validate_state`
validator is declared inside `BylawsRequest` (which has no such field),
so `CompanyFormation` construction runs no state validation at all: the
out-of-set code "XX" is accepted unchanged (the repository's own
`test_state_validation` asserts it must be rejected), and "de" is stored
without upper-casing, even though the `validate_state` body itself would
reject "XX". -/
theorem state_validation_not_applied_to_formation :
    mkCompanyFormation rawStateXX =
      Except.ok ⟨"Test Company", "XX", "corporation", "Test User"⟩ ∧
    validate_state "XX" = Except.error "Invalid US state or territory" ∧
    mkCompanyFormation rawStateLower =
      Except.ok ⟨"Test Company", "de", "corporation", "Test User"⟩ := by
  exact ⟨by rfl, by rfl, by rfl⟩

/-- C6: the claim says a formation request's `company_name` is validated
against the charset `[A-Za-z0-9\s,.'&]`.  In the code
`validate_company_name` is declared inside `BylawsRequest`, so
`CompanyFormation` construction accepts "Bad@Name!" unchanged, although
the validator body itself rejects that string. -/
theorem company_name_validation_not_applied_to_formation :
    mkCompanyFormation rawBadName =
      Except.ok ⟨"Bad@Name!", "DE", "corporation", "Test User"⟩ ∧
    validate_company_name "Bad@Name!" = Except.error
      "Company name can only contain alphanumeric characters, spaces, commas, periods, apostrophes, and ampersands" := by
  exact ⟨by rfl, by rfl⟩

/-- C3: the claim says a `/generate-bylaws` body failing validation gets a
400 JSON error.  The handler's `except ValidationError` clause names an
identifier app.py never imports or defines, so handling the pydantic
validation error raises `NameError` and the request crashes (Flask 500):
on the invalid fiscal year end "13-31" the handler yields no 400 JSON
response for any message. -/
theorem bylaws_validation_error_crashes_handler :
    generate_company_bylaws rawBylawsBadFiscal =
      HttpResult.crash "NameError: name ValidationError is not defined" ∧
    ∀ m : String, generate_company_bylaws rawBylawsBadFiscal ≠ HttpResult.jsonError 400 m := by
  have h : generate_company_bylaws rawBylawsBadFiscal =
      HttpResult.crash "NameError: name ValidationError is not defined" := by rfl
  exact ⟨h, fun m hm => by rw [h] at hm; exact HttpResult.noConfusion hm⟩

theorem officerPart_snd (ts : List String) (y : Int) :
    (officerPart ts y).2 = y - 20 * ts.length := by
  induction ts generalizing y with
  | nil => simp [officerPart]
  | cons t ts ih =>
    simp only [officerPart, ih, List.length_cons]
    push_cast
    ring

theorem officerPart_mem (ts : List String) (y : Int) (k : Nat) (hk : k < ts.length) :
    (⟨70, y - 20 * k, "Helvetica", 12, false, "- " ++ ts.get ⟨k, hk⟩⟩ : Instr)
      ∈ (officerPart ts y).1 := by
  induction ts generalizing y k with
  | nil => simp at hk
  | cons t ts ih =>
    cases k with
    | zero => simp [officerPart]
    | succ k =>
      have h := ih (y - 20) k (Nat.lt_of_succ_lt_succ hk)
      refine List.mem_cons_of_mem _ ?_
      have hy : y - 20 - 20 * (k : Int) = y - 20 * ((k : Int) + 1) := by ring
      simpa [hy] using h

theorem officerPart_not_centered (ts : List String) (y : Int) :
    ∀ i ∈ (officerPart ts y).1, i.centered = false := by
  induction ts generalizing y with
  | nil => simp [officerPart]
  | cons t ts ih =>
    intro i hi
    rcases List.mem_cons.1 hi with rfl | h
    · rfl
    · exact ih (y - 20) i h

/-- C2: for every bylaws record, the k-th officer title (0-based) is drawn
on its own line as "- title" at x = 70, y = 360 - 20k — so the first title
sits at y = 360 and each subsequent one 20pt lower — and the
"ARTICLE V - FISCAL YEAR" heading is drawn at y = 360 - 20n - 20, i.e.
20pt below the last officer line, computed from the list's length n rather
than a fixed coordinate. -/
theorem bylaws_officer_list_layout (b : BylawsRequest) :
    (∀ k (hk : k < b.officer_titles.length),
      (⟨70, 360 - 20 * k, "Helvetica", 12, false,
        "- " ++ b.officer_titles.get ⟨k, hk⟩⟩ : Instr) ∈ generate_bylaws b) ∧
    (⟨50, 360 - 20 * (b.officer_titles.length : Int) - 20, "Helvetica-Bold", 14, false,
      "ARTICLE V - FISCAL YEAR"⟩ : Instr) ∈ generate_bylaws b := by
  constructor
  · intro k hk
    have h := officerPart_mem b.officer_titles 360 k hk
    simp only [generate_bylaws, List.mem_append, List.mem_cons]
    tauto
  · have h := officerPart_snd b.officer_titles 360
    simp only [generate_bylaws, List.mem_append, List.mem_cons, h]
    tauto

/-- The 20-title officer list of the repository's `test_bylaws_edge_cases`. -/
def titlesTwenty : List String := (List.range 20).map (fun i => "Officer " ++ toString i)

/-- The "Maximal Corp" bylaws record of `test_bylaws_edge_cases`. -/
def bylawsTwenty : BylawsRequest :=
  ⟨"Maximal Corp", "Very Long Address, Suite 1000000, Maximum City, Maximum State, 99999",
   "12-31", 99, titlesTwenty, "December", 100⟩

theorem bylaws_officer_list_layout_witness :
    (⟨70, -20, "Helvetica", 12, false, "- Officer 19"⟩ : Instr)
      ∈ generate_bylaws bylawsTwenty ∧
    (⟨50, -60, "Helvetica-Bold", 14, false, "ARTICLE V - FISCAL YEAR"⟩ : Instr)
      ∈ generate_bylaws bylawsTwenty := by
  have h := bylaws_officer_list_layout bylawsTwenty
  constructor
  · have h1 := h.1 19 (by decide)
    have he : (⟨70, 360 - 20 * (19 : Nat), "Helvetica", 12, false,
        "- " ++ bylawsTwenty.officer_titles.get ⟨19, by decide⟩⟩ : Instr) =
        (⟨70, -20, "Helvetica", 12, false, "- Officer 19"⟩ : Instr) := by decide
    exact he ▸ h1
  · have h2 := h.2
    have he : (⟨50, 360 - 20 * ((bylawsTwenty.officer_titles.length : Nat) : Int) - 20,
        "Helvetica-Bold", 14, false, "ARTICLE V - FISCAL YEAR"⟩ : Instr) =
        (⟨50, -60, "Helvetica-Bold", 14, false, "ARTICLE V - FISCAL YEAR"⟩ : Instr) := by decide
    exact he ▸ h2

set_option maxRecDepth 100000 in
/-- C5: fiscal_year_end validation accepts exactly the regex language
`^(0[1-9]|1[0-2])-(0[1-9]|[12][0-9]|3[01])$`: over all two-digit pairs it
accepts "MM-DD" iff 1 ≤ MM ≤ 12 and 1 ≤ DD ≤ 31 (so the calendar-invalid
"02-30" passes, day-of-month is never checked against the month), and the
listed concrete strings behave as claimed. -/
theorem fiscal_year_end_regex_exact :
    (∀ m d : Fin 100, validate_fiscal_year_end (pad2 m.val ++ "-" ++ pad2 d.val) = true ↔
      (1 ≤ m.val ∧ m.val ≤ 12 ∧ 1 ≤ d.val ∧ d.val ≤ 31)) ∧
    validate_fiscal_year_end "12-31" = true ∧
    validate_fiscal_year_end "01-01" = true ∧
    validate_fiscal_year_end "02-30" = true ∧
    validate_fiscal_year_end "13-31" = false ∧
    validate_fiscal_year_end "00-01" = false ∧
    validate_fiscal_year_end "12-32" = false ∧
    validate_fiscal_year_end "12-00" = false ∧
    validate_fiscal_year_end "1231" = false ∧
    validate_fiscal_year_end "12-3" = false ∧
    validate_fiscal_year_end "ab-cd" = false ∧
    validate_fiscal_year_end "" = false := by
  decide

/-- The literal string `v` occurs verbatim in the extracted text of the
document `doc`: some drawn line contains `v` as a contiguous substring. -/
def Appears (v : String) (doc : List Instr) : Prop :=
  ∃ i ∈ doc, v.data <:+: i.text.data

theorem appears_of_eq {v : String} {doc : List Instr} {i : Instr}
    (hm : i ∈ doc) (he : i.text = v) : Appears v doc :=
  ⟨i, hm, by rw [he]⟩

theorem appears_of_concat {v : String} {doc : List Instr} {i : Instr}
    (hm : i ∈ doc) (p q : String) (he : i.text = p ++ v ++ q) : Appears v doc :=
  ⟨i, hm, p.data, q.data, by rw [he]; simp [String.data_append]⟩

theorem appears_of_pre {v : String} {doc : List Instr} {i : Instr}
    (hm : i ∈ doc) (q : String) (he : i.text = v ++ q) : Appears v doc :=
  ⟨i, hm, [], q.data, by rw [he]; simp [String.data_append]⟩

theorem appears_of_suf {v : String} {doc : List Instr} {i : Instr}
    (hm : i ∈ doc) (p : String) (he : i.text = p ++ v) : Appears v doc :=
  ⟨i, hm, p.data, [], by rw [he]; simp [String.data_append]⟩

theorem appears_title_bylaws {t : String} {b : BylawsRequest}
    (h : t ∈ b.officer_titles) : Appears t (generate_bylaws b) := by
  have key : ∀ (ts : List String) (y : Int), t ∈ ts →
      ∃ y', (⟨70, y', "Helvetica", 12, false, "- " ++ t⟩ : Instr) ∈ (officerPart ts y).1 := by
    intro ts
    induction ts with
    | nil => intro y hy; simp at hy
    | cons a as ih =>
      intro y hy
      rcases List.mem_cons.1 hy with rfl | h2
      · exact ⟨y, by simp [officerPart]⟩
      · rcases ih (y - 20) h2 with ⟨y', hy'⟩
        exact ⟨y', by simp [officerPart]; tauto⟩
  rcases key b.officer_titles 360 h with ⟨y', hy'⟩
  refine appears_of_suf (i := ⟨70, y', "Helvetica", 12, false, "- " ++ t⟩) ?_ "- " rfl
  simp only [generate_bylaws, List.mem_append]
  tauto

/-- C4 (amended): for every record, each record-supplied literal value
appears verbatim in the extracted text of the documents that draw it —
company_name and incorporator_name in each of the four formation
documents, and principal_office, quorum_percentage, board_size,
fiscal_year_end, annual_meeting_month and every officer title in the
bylaws — except that the bylaws renders company_name upper-cased, so for
the bylaws only the upper-cased company name is guaranteed to appear. -/
theorem round_trip_values_appear (r : CompanyFormation) (t : Now) (b : BylawsRequest) :
    (Appears r.company_name (generate_delaware_articles r t) ∧
     Appears r.incorporator_name (generate_delaware_articles r t)) ∧
    (Appears r.company_name (generate_delaware_llc_certificate r t) ∧
     Appears r.incorporator_name (generate_delaware_llc_certificate r t)) ∧
    (Appears r.company_name (generate_california_articles r t) ∧
     Appears r.incorporator_name (generate_california_articles r t)) ∧
    (Appears r.company_name (generate_california_llc_certificate r t) ∧
     Appears r.incorporator_name (generate_california_llc_certificate r t)) ∧
    (Appears b.principal_office (generate_bylaws b) ∧
     Appears (toString b.quorum_percentage) (generate_bylaws b) ∧
     Appears (toString b.board_size) (generate_bylaws b) ∧
     Appears b.fiscal_year_end (generate_bylaws b) ∧
     Appears b.annual_meeting_month (generate_bylaws b) ∧
     Appears (strUpper b.company_name) (generate_bylaws b) ∧
     ∀ title ∈ b.officer_titles, Appears title (generate_bylaws b)) := by
  refine ⟨⟨?_, ?_⟩, ⟨?_, ?_⟩, ⟨?_, ?_⟩, ⟨?_, ?_⟩, ?_, ?_, ?_, ?_, ?_, ?_, ?_⟩
  · exact appears_of_eq (i := ⟨70, 680, "Helvetica", 12, false, r.company_name⟩)
      (by simp [generate_delaware_articles]) rfl
  · exact appears_of_eq (i := ⟨70, 80, "Helvetica", 12, false, r.incorporator_name⟩)
      (by simp [generate_delaware_articles]) rfl
  · exact appears_of_eq (i := ⟨70, 680, "Helvetica", 12, false, r.company_name⟩)
      (by simp [generate_delaware_llc_certificate]) rfl
  · exact appears_of_eq (i := ⟨70, 80, "Helvetica", 12, false, r.incorporator_name⟩)
      (by simp [generate_delaware_llc_certificate]) rfl
  · exact appears_of_eq (i := ⟨70, 680, "Helvetica", 12, false, r.company_name⟩)
      (by simp [generate_california_articles]) rfl
  · exact appears_of_eq (i := ⟨70, 80, "Helvetica", 12, false, r.incorporator_name⟩)
      (by simp [generate_california_articles]) rfl
  · exact appears_of_eq (i := ⟨70, 680, "Helvetica", 12, false, r.company_name⟩)
      (by simp [generate_california_llc_certificate]) rfl
  · exact appears_of_eq (i := ⟨70, 80, "Helvetica", 12, false, r.incorporator_name⟩)
      (by simp [generate_california_llc_certificate]) rfl
  · exact appears_of_eq (i := ⟨70, 640, "Helvetica", 12, false, b.principal_office⟩)
      (by simp [generate_bylaws]) rfl
  · exact appears_of_concat
      (i := ⟨50, 540, "Helvetica", 12, false,
        "2. Quorum. " ++ toString b.quorum_percentage
          ++ "% of the outstanding shares shall constitute"⟩)
      (by simp [generate_bylaws]) "2. Quorum. "
      "% of the outstanding shares shall constitute" rfl
  · exact appears_of_suf
      (i := ⟨50, 460, "Helvetica", 12, false,
        "1. Number. The Board of Directors shall consist of " ++ toString b.board_size⟩)
      (by simp [generate_bylaws])
      "1. Number. The Board of Directors shall consist of " rfl
  · exact appears_of_suf
      (i := ⟨50, (officerPart b.officer_titles 360).2 - 40, "Helvetica", 12, false,
        "The fiscal year of the corporation shall end on " ++ b.fiscal_year_end⟩)
      (by simp [generate_bylaws])
      "The fiscal year of the corporation shall end on " rfl
  · exact appears_of_pre
      (i := ⟨70, 560, "Helvetica", 12, false, b.annual_meeting_month ++ " of each year."⟩)
      (by simp [generate_bylaws]) " of each year." rfl
  · exact appears_of_eq (i := ⟨300, 730, "Helvetica-Bold", 16, true, strUpper b.company_name⟩)
      (by simp [generate_bylaws]) rfl
  · intro title ht
    exact appears_title_bylaws ht

set_option maxRecDepth 40000 in
/-- C4 (counterexample): the claim as stated fails for the bylaws
generator — the repository test record has company_name
"Test Corporation", but the bylaws document draws only the upper-cased
"TEST CORPORATION", so the literal input value appears nowhere in the
extracted text. -/
theorem round_trip_counterexample :
    ¬ Appears "Test Corporation" (generate_bylaws bylawsTestRec) := by
  unfold Appears
  decide

theorem round_trip_values_appear_witness :
    Appears "Chief Executive Officer" (generate_bylaws bylawsTestRec) ∧
    Appears "Acme Corp, Inc." (generate_delaware_articles formationTestRec nowTest) := by
  have h := round_trip_values_appear formationTestRec nowTest bylawsTestRec
  exact ⟨h.2.2.2.2.2.2.2.2.2.2 "Chief Executive Officer" (by decide), h.1.1⟩

/-- C7: for every validated formation record carrying its normalized
state code, the `/form-company` dispatch returns the 400
unsupported-jurisdiction JSON error (and no document) whenever the state
is neither "DE" nor "CA", and for "DE"/"CA" with company_type
"corporation"/"LLC" it returns exactly the output of the matching one of
the four generators. -/
theorem form_company_dispatch (r : CompanyFormation) (t : Now) :
    (r.state_of_formation ≠ "DE" → r.state_of_formation ≠ "CA" →
      form_company r t = HttpResult.jsonError 400
        "Only Delaware and California entities are supported at this time") ∧
    (r.state_of_formation = "DE" → r.company_type = "corporation" →
      form_company r t = HttpResult.pdf (r.company_name ++ "_certificate.pdf")
        (generate_delaware_articles r t)) ∧
    (r.state_of_formation = "DE" → r.company_type = "LLC" →
      form_company r t = HttpResult.pdf (r.company_name ++ "_certificate.pdf")
        (generate_delaware_llc_certificate r t)) ∧
    (r.state_of_formation = "CA" → r.company_type = "corporation" →
      form_company r t = HttpResult.pdf (r.company_name ++ "_certificate.pdf")
        (generate_california_articles r t)) ∧
    (r.state_of_formation = "CA" → r.company_type = "LLC" →
      form_company r t = HttpResult.pdf (r.company_name ++ "_certificate.pdf")
        (generate_california_llc_certificate r t)) := by
  obtain ⟨n, s, ty, inc⟩ := r
  refine ⟨?_, ?_, ?_, ?_, ?_⟩ <;> intro h1 h2 <;>
    simp_all [form_company]

theorem form_company_dispatch_witness :
    form_company formationTX nowTest = HttpResult.jsonError 400
      "Only Delaware and California entities are supported at this time" :=
  (form_company_dispatch formationTX nowTest).1 (by decide) (by decide)

/-- C8 (counterexample): the claim says every centered draw is anchored
at the 306pt horizontal midpoint of the 612pt-wide Letter page, but the
title of the Delaware articles is a centered draw anchored at x = 300. -/
theorem centered_draw_not_at_midpoint :
    (⟨300, 750, "Helvetica-Bold", 16, true, "CERTIFICATE OF INCORPORATION"⟩ : Instr)
      ∈ generate_delaware_articles formationTestRec nowTest ∧
    (300 : Int) ≠ letterWidth / 2 := by
  exact ⟨by simp [generate_delaware_articles], by decide⟩

/-- C8 (amended): every centered text draw in each of the five generated
documents is anchored at x = 300 — a fixed anchor 6pt left of the exact
306pt midpoint of the 612pt-wide Letter page. -/
theorem centered_draws_at_300 (r : CompanyFormation) (t : Now) (b : BylawsRequest) :
    (∀ i ∈ generate_delaware_articles r t, i.centered = true → i.x = 300) ∧
    (∀ i ∈ generate_delaware_llc_certificate r t, i.centered = true → i.x = 300) ∧
    (∀ i ∈ generate_california_articles r t, i.centered = true → i.x = 300) ∧
    (∀ i ∈ generate_california_llc_certificate r t, i.centered = true → i.x = 300) ∧
    (∀ i ∈ generate_bylaws b, i.centered = true → i.x = 300) := by
  refine ⟨?_, ?_, ?_, ?_, ?_⟩
  · intro i hi
    simp only [generate_delaware_articles, List.mem_cons, List.not_mem_nil, or_false] at hi
    rcases hi with rfl|rfl|rfl|rfl|rfl|rfl|rfl|rfl|rfl|rfl|rfl|rfl|rfl|rfl <;> intro h <;>
      first | rfl | simp at h
  · intro i hi
    simp only [generate_delaware_llc_certificate, List.mem_cons, List.not_mem_nil,
      or_false] at hi
    rcases hi with rfl|rfl|rfl|rfl|rfl|rfl|rfl|rfl|rfl|rfl|rfl|rfl|rfl|rfl <;> intro h <;>
      first | rfl | simp at h
  · intro i hi
    simp only [generate_california_articles, List.mem_cons, List.not_mem_nil, or_false] at hi
    rcases hi with rfl|rfl|rfl|rfl|rfl|rfl|rfl|rfl|rfl|rfl|rfl|rfl|rfl|rfl <;> intro h <;>
      first | rfl | simp at h
  · intro i hi
    simp only [generate_california_llc_certificate, List.mem_cons, List.not_mem_nil,
      or_false] at hi
    rcases hi with rfl|rfl|rfl|rfl|rfl|rfl|rfl|rfl|rfl|rfl|rfl|rfl <;> intro h <;>
      first | rfl | simp at h
  · intro i hi
    simp only [generate_bylaws, List.mem_append, List.mem_cons, List.not_mem_nil,
      or_false] at hi
    intro h
    rcases hi with ((rfl|rfl|rfl|rfl|rfl|rfl|rfl|rfl|rfl|rfl|rfl|rfl|rfl|rfl|rfl) | hop) |
        (rfl|rfl|rfl)
    all_goals first
    | rfl
    | simp at h
    | (have hc := officerPart_not_centered b.officer_titles 360 i hop
       rw [h] at hc
       exact absurd hc (by decide))

theorem centered_draws_at_300_witness :
    (⟨300, 750, "Helvetica-Bold", 16, true, "CERTIFICATE OF INCORPORATION"⟩ : Instr).x
      = 300 :=
  (centered_draws_at_300 formationTestRec nowTest bylawsTestRec).1
    ⟨300, 750, "Helvetica-Bold", 16, true, "CERTIFICATE OF INCORPORATION"⟩
    (by simp [generate_delaware_articles]) rfl

/-- C10: every raw formation body accepted by `CompanyFormation`
validation has company_type exactly "corporation" or "LLC"
(case-sensitive, from the `Literal` field type), and consequently the
two "Unsupported company type" 400 branches of the `/form-company`
dispatch are unreachable for validated records. -/
theorem company_type_branches_unreachable (raw : RawFormation) (r : CompanyFormation)
    (t : Now) (h : mkCompanyFormation raw = Except.ok r) :
    (r.company_type = "corporation" ∨ r.company_type = "LLC") ∧
    form_company r t ≠ HttpResult.jsonError 400 "Unsupported company type" := by
  obtain ⟨cn, st, ty0, inc0⟩ := raw
  rcases cn with _ | n <;> rcases st with _ | s <;> rcases ty0 with _ | ty <;>
    rcases inc0 with _ | inc <;> simp only [mkCompanyFormation] at h
  all_goals try exact Except.noConfusion h
  split at h
  case isTrue hty =>
    injection h with h
    subst h
    refine ⟨hty, ?_⟩
    rcases hty with rfl | rfl <;>
      by_cases hs : s = "DE" <;> by_cases hs2 : s = "CA" <;>
        simp [form_company, hs, hs2]
  case isFalse _ => exact Except.noConfusion h

theorem company_type_branches_unreachable_witness :
    (formationTestRec.company_type = "corporation" ∨
      formationTestRec.company_type = "LLC") ∧
    form_company formationTestRec nowTest ≠
      HttpResult.jsonError 400 "Unsupported company type" :=
  company_type_branches_unreachable rawFormationTest formationTestRec nowTest (by rfl)
